import Mathlib

/-!
Verification of the `update_schedule.py` pipeline
(fetch → resolve → aggregate → diff → persist).

The Python program is shallowly embedded:

* JSON values are the inductive type `Json`; Python `dict.get`,
  truthiness, `str()` interpolation and `json.dumps(sort_keys=True)`
  are modelled by `dictGetD`, `pyTruthy`, `pyStr` and `dumps`.
* Network I/O is an oracle `String → HttpOutcome` mapping a request URL
  to either an exception (timeout, connection failure, unparsable body)
  or an HTTP status with a parsed JSON body.
* `hashlib.md5` and `datetime.fromtimestamp(...).isoformat()` are
  external library functions, kept abstract as fields of `Env`. Both
  the line-70 int-to-float conversion and the line-94
  `datetime.fromtimestamp` call raise for out-of-range dates; for the
  exception-safety analysis `EnvE` extends `Env` with the (platform-
  and timezone-dependent) domains on which they succeed, and
  `process_matchE` makes those raising paths explicit.
* `time.time() * 1000` is a clock oracle; since the source reads it
  inside `process_match`, the aggregation phase gives each match task
  its own clock sample (`clock : Nat → Int`, indexed by task number).
* Python exceptions are the `Except PyErr` monad; a bare `except:` is a
  `match` on the result.
* The filesystem is `FS` (snapshot file plus append-only log); the
  snapshot file content is kept parsed (`SnapFile`), with `corrupt`
  standing for an existing but unparsable file.
-/

/-- A JSON value, as produced by `response.json()` / `json.load`.
Numbers are modelled as integers (the upstream dates and the program's
arithmetic use integral millisecond values). -/
inductive Json where
  | null : Json
  | bool : Bool → Json
  | num : Int → Json
  | str : String → Json
  | arr : List Json → Json
  | obj : List (String × Json) → Json
deriving Inhabited

/-- A Python exception class, as far as the program can raise one:
`AttributeError` (`.get` on a non-dict), `TypeError` (arithmetic or
iteration on an unsuitable value), `ValueError`
(`datetime.fromtimestamp` on an out-of-range timestamp) and
`OverflowError` (int-to-float conversion or `fromtimestamp` beyond
float/`time_t` range). -/
inductive PyErr where
  | attributeError : PyErr
  | typeError : PyErr
  | valueError : PyErr
  | overflowError : PyErr
deriving DecidableEq, Inhabited

/-- Python truthiness (`bool(x)`) of a JSON value. -/
def pyTruthy : Json → Bool
  | .null => false
  | .bool b => b
  | .num n => n != 0
  | .str s => s != ""
  | .arr xs => !xs.isEmpty
  | .obj kvs => !kvs.isEmpty

/-- Python `d.get(key, default)` on a dict: the stored value when the
key is present (even when that value is `None`), the default otherwise. -/
def dictGetD (kvs : List (String × Json)) (k : String) (d : Json) : Json :=
  match List.lookup k kvs with
  | some v => v
  | none => d

/-- The numeric view Python's `-` takes of a value: ints stay ints,
`True`/`False` are 1/0, everything else raises `TypeError`. -/
def toNumber : Json → Option Int
  | .num n => some n
  | .bool b => some (if b then 1 else 0)
  | _ => none

/-- JSON string escaping for the two characters the program's data can
force `json.dumps` to escape. -/
def escapeChar (c : Char) : String :=
  if c = '"' then "\\\""
  else if c = '\\' then "\\\\"
  else String.singleton c

/-- Escape a string body for serialization. -/
def escapeStr (s : String) : String :=
  String.join (s.toList.map escapeChar)

/-- Insertion of a key/value pair into a key-sorted list (`sort_keys=True`). -/
def insertPair (p : String × String) : List (String × String) → List (String × String)
  | [] => [p]
  | q :: qs => if p.1 ≤ q.1 then p :: q :: qs else q :: insertPair p qs

/-- Key-sorting of serialized object entries (`sort_keys=True`). -/
def sortPairs : List (String × String) → List (String × String)
  | [] => []
  | p :: ps => insertPair p (sortPairs ps)

/-- Render already-serialized object entries as `"k": v` items. -/
def renderPairs : List (String × String) → List String
  | [] => []
  | (k, v) :: ps => ("\"" ++ escapeStr k ++ "\": " ++ v) :: renderPairs ps

/-- Comma-join of serialized items. -/
def commaJoin : List String → String
  | [] => ""
  | [x] => x
  | x :: xs => x ++ ", " ++ commaJoin xs

mutual
/-- `json.dumps(v, sort_keys=True)`: canonical serialization with every
mapping's keys sorted. -/
def dumps : Json → String
  | .null => "null"
  | .bool b => if b then "true" else "false"
  | .num n => toString n
  | .str s => "\"" ++ escapeStr s ++ "\""
  | .arr xs => "[" ++ commaJoin (dumpsList xs) ++ "]"
  | .obj kvs => "\x7b" ++ commaJoin (renderPairs (sortPairs (dumpsPairs kvs))) ++ "\x7d"

/-- Serialize each element of a JSON array. -/
def dumpsList : List Json → List String
  | [] => []
  | x :: xs => dumps x :: dumpsList xs

/-- Serialize the values of a JSON object, keeping the keys. -/
def dumpsPairs : List (String × Json) → List (String × String)
  | [] => []
  | (k, v) :: kvs => (k, dumps v) :: dumpsPairs kvs
end

/-- Python `str(x)` as used in the program's f-strings. -/
def pyStr : Json → String
  | .null => "None"
  | .bool b => if b then "True" else "False"
  | .num n => toString n
  | .str s => s
  | .arr xs => "[" ++ commaJoin (dumpsList xs) ++ "]"
  | .obj kvs => "\x7b" ++ commaJoin (renderPairs (sortPairs (dumpsPairs kvs))) ++ "\x7d"

/-- `API_URL` configuration constant. -/
def API_URL : String := "https://streamed.pk/api/matches/all-today"

/-- `IMG_BASE_URL` configuration constant. -/
def IMG_BASE_URL : String := "https://streamed.pk/api/images/badge/"

/-- `STREAM_BASE_URL` configuration constant. -/
def STREAM_BASE_URL : String := "https://streamed.pk/api/stream/"

/-- `TWELVE_HOURS_MS = 12 * 60 * 60 * 1000`. -/
def TWELVE_HOURS_MS : Int := 12 * 60 * 60 * 1000

/-- Outcome of one `requests.get`: either an exception (timeout,
connection failure, or a body `response.json()` cannot parse) or a
status code with the parsed JSON body. -/
inductive HttpOutcome where
  | exn : HttpOutcome
  | ok : Nat → Json → HttpOutcome

/-- The external-library environment a run executes against: the HTTP
world, `datetime.fromtimestamp(ms / 1000).isoformat()` and
`hashlib.md5(...).hexdigest()` (both stdlib black boxes, kept abstract
but fixed for the run). -/
structure Env where
  http : String → HttpOutcome
  isoTs : Int → String
  md5 : String → String

/-- Normalization of one element of a deep-link response
(`resolve_source` lines 49–53): `url` is `embedUrl` verbatim (missing →
`None`), `language` defaults to `"Unknown"`, `hd` defaults to `False`. -/
def cleanStream (stream : List (String × Json)) : Json :=
  .obj [("url", dictGetD stream "embedUrl" .null),
        ("language", dictGetD stream "language" (.str "Unknown")),
        ("hd", dictGetD stream "hd" (.bool false))]

/-- View a JSON value as a list of dict elements, `none` when some
element is not a dict. The `for stream in data: stream.get(...)` loop
succeeds exactly when `data` is an array of objects (any non-object
element raises, which the surrounding `except:` turns into `[]`; a
non-array `data` either raises or, like `""`, yields no elements). -/
def asObjList : Json → Option (List (List (String × Json)))
  | .arr xs => goElems xs
  | _ => none
where
  /-- Collect the fields of each element, failing on a non-object. -/
  goElems : List Json → Option (List (List (String × Json)))
  | [] => some []
  | .obj kvs :: rest => (goElems rest).map (kvs :: ·)
  | _ => none

/-- The deep-link URL `f"{STREAM_BASE_URL}{source}/{s_id}"` built by
`resolve_source` from a ref's fields. -/
def streamUrl (kvs : List (String × Json)) : String :=
  STREAM_BASE_URL ++ pyStr (dictGetD kvs "source" .null) ++ "/"
    ++ pyStr (dictGetD kvs "id" .null)

/-- `resolve_source(source_info)`: resolves one match-source reference
into a list of normalized stream objects. Returns `[]` when `source` or
`id` is falsy, when the request raises (timeout, connection failure,
unparsable body — the bare `except:`), on a non-200 status (the final
`return []`), or when iterating the parsed body raises. The only
exception that escapes is the `.get` on a non-dict argument (line 34,
outside the `try`). -/
def resolve_source (http : String → HttpOutcome) (source_info : Json) :
    Except PyErr (List Json) :=
  match source_info with
  | .obj kvs =>
    let source := dictGetD kvs "source" .null
    let s_id := dictGetD kvs "id" .null
    if !pyTruthy source || !pyTruthy s_id then .ok []
    else
      match http (streamUrl kvs) with
      | .exn => .ok []
      | .ok status data =>
        if status = 200 then
          match asObjList data with
          | some streams => .ok (streams.map cleanStream)
          | none => .ok []
        else .ok []
  | _ => .error .attributeError

/-- Python iteration over the value the `for s in raw_sources:` /
`executor.map` loops receive: arrays yield their elements, strings
their characters, dicts their keys; other truthy values raise
`TypeError`. -/
def iterElems : Json → Except PyErr (List Json)
  | .arr xs => .ok xs
  | .str s => .ok (s.toList.map (fun c => .str (String.singleton c)))
  | .obj kvs => .ok (kvs.map (fun kv => .str kv.1))
  | _ => .error .typeError

/-- The sequential per-match resolution loop (`process_match` lines
86–88), instrumented: besides the concatenated streams (or the first
escaping exception) it records the list of arguments actually passed to
`resolve_source`. -/
def resolveLoop (http : String → HttpOutcome) :
    List Json → Except PyErr (List Json) × List Json
  | [] => (.ok [], [])
  | s :: rest =>
    match resolve_source http s with
    | .error e => (.error e, [s])
    | .ok streams =>
      match resolveLoop http rest with
      | (.ok more, calls) => (.ok (streams ++ more), s :: calls)
      | (.error e, calls) => (.error e, s :: calls)

/-- Python `x or d` for the defensive accesses (`teams or {}` etc.):
the value when truthy, the default otherwise. -/
def pyOr (x d : Json) : Json :=
  if pyTruthy x then x else d

/-- `.get` on the result of a defensive access: succeeds with the
fields when it is a dict, raises `AttributeError` otherwise. -/
def asObj : Json → Except PyErr (List (String × Json))
  | .obj kvs => .ok kvs
  | _ => .error .attributeError

/-- The badge URL expression
`f"{IMG_BASE_URL}{x.get('badge')}.webp" if x.get('badge') else ""`. -/
def badgeUrl (team : List (String × Json)) : Json :=
  if pyTruthy (dictGetD team "badge" .null) then
    .str (IMG_BASE_URL ++ pyStr (dictGetD team "badge" .null) ++ ".webp")
  else .str ""

/-- The body of `process_match` after the time filter has passed
(lines 73–105): safe extraction, sequential deep-link resolution, and
assembly of the output object. Instrumented like `resolveLoop` with the
list of refs passed to `resolve_source`. -/
def processBody (env : Env) (kvs : List (String × Json)) (d : Int) :
    Except PyErr Json × List Json :=
  match asObj (pyOr (dictGetD kvs "teams" .null) (.obj [])) with
  | .error e => (.error e, [])
  | .ok teams =>
    match asObj (pyOr (dictGetD teams "home" .null) (.obj [])) with
    | .error e => (.error e, [])
    | .ok home =>
      match asObj (pyOr (dictGetD teams "away" .null) (.obj [])) with
      | .error e => (.error e, [])
      | .ok away =>
        match iterElems (pyOr (dictGetD kvs "sources" .null) (.arr [])) with
        | .error e => (.error e, [])
        | .ok srcs =>
          match resolveLoop env.http srcs with
          | (.error e, calls) => (.error e, calls)
          | (.ok links, calls) =>
            (.ok (.obj [
              ("id", dictGetD kvs "id" .null),
              ("title",
                pyOr (dictGetD kvs "title" .null)
                  (.str (pyStr (dictGetD home "name" (.str "Home")) ++ " vs "
                    ++ pyStr (dictGetD away "name" (.str "Away"))))),
              ("sport", dictGetD kvs "category" .null),
              ("kickOff", .str (env.isoTs d)),
              ("isLive", .bool false),
              ("team1", .obj [("name", dictGetD home "name" (.str "Home Team")),
                              ("logo", badgeUrl home)]),
              ("team2", .obj [("name", dictGetD away "name" (.str "Away Team")),
                              ("logo", badgeUrl away)]),
              ("links", .arr links)]), calls)

/-- `process_match(api_match)` with the clock sample `now` (the value
`time.time() * 1000` read inside the function) made explicit, and
instrumented with the list of refs passed to `resolve_source`. Returns
`none` when the match is filtered by the 12-hour window, before any
resolution; raises (`TypeError`) when `date` is present but not a
number, or (`AttributeError`) on a non-dict argument. -/
def process_matchT (env : Env) (now : Int) (api_match : Json) :
    Except PyErr (Option Json) × List Json :=
  match api_match with
  | .obj kvs =>
    match toNumber (dictGetD kvs "date" (.num 0)) with
    | none => (.error .typeError, [])
    | some d =>
      if now - d > TWELVE_HOURS_MS then (.ok none, [])
      else
        match processBody env kvs d with
        | (.ok j, calls) => (.ok (some j), calls)
        | (.error e, calls) => (.error e, calls)
  | _ => (.error .attributeError, [])

/-- `process_match(api_match)`: the returned value (normalized match,
`None`, or an escaping exception). -/
def process_match (env : Env) (now : Int) (api_match : Json) :
    Except PyErr (Option Json) :=
  (process_matchT env now api_match).1

/-- `fetch_matches()`: the main-API fetch. Any exception — including the
one `raise_for_status()` raises on a 4xx/5xx status — is caught and
converted to `[]`; otherwise the parsed body is returned. -/
def fetch_matches (outcome : HttpOutcome) : Json :=
  match outcome with
  | .exn => .arr []
  | .ok status body => if 400 ≤ status then .arr [] else body

/-- The parallel processing phase (`executor.map(process_match,
raw_matches)`): task `i` runs `process_match` on the `i`-th raw match
with its own clock sample `clock (start + i)`; `results` preserves input
order, and an exception in any task surfaces when the results are
iterated. -/
def processResultsFrom (env : Env) (clock : Nat → Int) (start : Nat) :
    List Json → Except PyErr (List (Option Json))
  | [] => .ok []
  | m :: rest =>
    match process_match env (clock start) m with
    | .error e => .error e
    | .ok r =>
      match processResultsFrom env clock (start + 1) rest with
      | .error e => .error e
      | .ok rs => .ok (r :: rs)

/-- The collection loop `for res in results: if res: final_schedule.append(res)`:
keeps the truthy (non-`None`, non-empty) results in order. -/
def collectTruthy (rs : List (Option Json)) : List Json :=
  rs.filterMap (fun r =>
    match r with
    | some j => if pyTruthy j then some j else none
    | none => none)

/-- Dispatch plus collection: the `final_schedule` list as built by
`main` from the raw match list (before sorting). -/
def processAll (env : Env) (clock : Nat → Int) (raws : List Json) :
    Except PyErr (List Json) :=
  match processResultsFrom env clock 0 raws with
  | .error e => .error e
  | .ok rs => .ok (collectTruthy rs)

/-- The sort key `lambda x: x['kickOff']` (every schedule entry carries
a string `kickOff`). -/
def kickKey (j : Json) : String :=
  match j with
  | .obj kvs =>
    match dictGetD kvs "kickOff" .null with
    | .str s => s
    | _ => ""
  | _ => ""

/-- Insertion into a list sorted ascending by `kickKey`. -/
def insertByKick (x : Json) : List Json → List Json
  | [] => [x]
  | y :: ys => if kickKey x ≤ kickKey y then x :: y :: ys else y :: insertByKick x ys

/-- `final_schedule.sort(key=lambda x: x['kickOff'])`: deterministic
ascending sort by the `kickOff` string. -/
def sortByKick : List Json → List Json
  | [] => []
  | x :: xs => insertByKick x (sortByKick xs)

/-- The snapshot file (`matches.json`) as the change gate sees it:
absent, present but unparsable, or holding a JSON document. -/
inductive SnapFile where
  | missing : SnapFile
  | corrupt : SnapFile
  | content : Json → SnapFile

/-- Persisted state: the snapshot file plus the append-only audit log
(`match_history.log`), one string per line. -/
structure FS where
  snapshot : SnapFile
  log : List String

/-- `load_existing_data()`: the parsed snapshot, or `[]` when the file
is missing or fails to parse. -/
def load_existing_data : SnapFile → Json
  | .content j => j
  | _ => .arr []

/-- `generate_hash(data)`: the md5 hex digest of the canonical
(`sort_keys=True`) serialization. -/
def generate_hash (env : Env) (data : Json) : String :=
  env.md5 (dumps data)

/-- The change-gate decision `new_hash != old_hash` of `main`. -/
def shouldPersist (env : Env) (newData oldData : Json) : Bool :=
  generate_hash env newData != generate_hash env oldData

/-- The audit line `f"[{timestamp}] Updated: {len} matches found. Hash: {hash}"`. -/
def logEntry (timestamp : String) (count : Nat) (hash : String) : String :=
  "[" ++ timestamp ++ "] Updated: " ++ toString count
    ++ " matches found. Hash: " ++ hash

/-- The change-detection and persistence tail of `main` (lines
141–161): hash the new schedule against the loaded previous one;
on mismatch overwrite the snapshot and append one audit line, otherwise
leave the filesystem untouched. -/
def persistStep (env : Env) (timestamp : String) (final_schedule : List Json)
    (fs : FS) : FS :=
  let current_data := load_existing_data fs.snapshot
  if shouldPersist env (.arr final_schedule) current_data then
    { snapshot := .content (.arr final_schedule),
      log := fs.log ++ [logEntry timestamp final_schedule.length
        (generate_hash env (.arr final_schedule))] }
  else fs

/-- `main()`: fetch, short-circuit on falsy data, process in parallel,
sort, and run the change gate, transforming the filesystem state.
`clock` supplies each match task's `time.time() * 1000` sample and
`timestamp` the `datetime.now()` string of the audit line. -/
def mainRun (env : Env) (clock : Nat → Int) (timestamp : String)
    (fetchOutcome : HttpOutcome) (fs : FS) : Except PyErr FS :=
  let raw_matches := fetch_matches fetchOutcome
  if !pyTruthy raw_matches then .ok fs
  else
    match iterElems raw_matches with
    | .error e => .error e
    | .ok raws =>
      match processAll env clock raws with
      | .error e => .error e
      | .ok final_schedule =>
        .ok (persistStep env timestamp (sortByKick final_schedule) fs)

/-- Field access on a JSON object for stating properties of outputs
(`.null` when absent or not an object). -/
def jGet (j : Json) (k : String) : Json :=
  match j with
  | .obj kvs => dictGetD kvs k .null
  | _ => .null

/-- String view of a field for stating properties (`""` when not a string). -/
def jGetStr (j : Json) (k : String) : String :=
  match jGet j k with
  | .str s => s
  | _ => ""

/-- The failure situations of one `resolve_source` call on a dict ref:
a falsy `source` or `id` field, a request exception (timeout,
connection failure, unparsable body), a non-200 status, or a 200 body
that is not an array of objects. -/
def resolveFails (http : String → HttpOutcome) (kvs : List (String × Json)) : Prop :=
  pyTruthy (dictGetD kvs "source" .null) = false
  ∨ pyTruthy (dictGetD kvs "id" .null) = false
  ∨ http (streamUrl kvs) = .exn
  ∨ (∃ status body, http (streamUrl kvs) = .ok status body ∧ status ≠ 200)
  ∨ (∃ body, http (streamUrl kvs) = .ok 200 body ∧ asObjList body = none)

/-- The stream list a single source contributes to `links`: the
resolved list, with a failed call contributing nothing. (Under a
successful `process_match` run no call errors, so this coincides with
the actual `resolve_source` result.) -/
def resolvedStreams (http : String → HttpOutcome) (s : Json) : List Json :=
  match resolve_source http s with
  | .ok l => l
  | .error _ => []

/-- The effective source list `api_match.get('sources') or []` when it
is list-shaped (`none` when it is some truthy non-list). -/
def sourcesList (kvs : List (String × Json)) : Option (List Json) :=
  let s := dictGetD kvs "sources" .null
  if pyTruthy s then
    match s with
    | .arr xs => some xs
    | _ => none
  else some []

/-- Number of schedule entries a processing outcome carries (0 on error). -/
def countOf (r : Except PyErr (List Json)) : Nat :=
  match r with
  | .ok l => l.length
  | .error _ => 0

/-- The `title` field of a successful `process_match` result (`""` on
error or a filtered match). -/
def titleOf (r : Except PyErr (Option Json)) : String :=
  match r with
  | .ok (some m) => jGetStr m "title"
  | _ => ""

/-- A raw match is container-well-formed when `date` (defaulted to 0)
is numeric, the `teams` / `home` / `away` containers are dicts or falsy,
and `sources` is list-shaped with every element a dict. Exactly these
shapes let `process_match` avoid every raising operation. -/
def wellFormedRaw (kvs : List (String × Json)) : Prop :=
  (∃ d, toNumber (dictGetD kvs "date" (.num 0)) = some d)
  ∧ (∃ teams, asObj (pyOr (dictGetD kvs "teams" .null) (.obj [])) = .ok teams
      ∧ (∃ home, asObj (pyOr (dictGetD teams "home" .null) (.obj [])) = .ok home)
      ∧ (∃ away, asObj (pyOr (dictGetD teams "away" .null) (.obj [])) = .ok away))
  ∧ (∃ srcs, sourcesList kvs = some srcs
      ∧ ∀ s ∈ srcs, ∃ fields, s = Json.obj fields)

/-- A fixed concrete environment for witnesses and counterexamples:
every request raises, timestamps render as `""`, and the digest is the
serialization itself. -/
def env0 : Env :=
  { http := fun _ => .exn, isoTs := fun _ => "", md5 := fun s => s }

/-- A raw match carrying only `date = 0`. -/
def rawDate0 : Json := .obj [("date", .num 0)]

/-- An initial filesystem state: no snapshot, empty log. -/
def fs0 : FS := { snapshot := .missing, log := [] }

/-- A two-task clock whose samples straddle the recency cutoff. -/
def clk2 : Nat → Int := fun i => if i = 0 then 0 else 43200001

/-- An HTTP world in which every deep-link lookup answers 200 with one
stream `{embedUrl: "http://x", language: "EN", hd: true}`. -/
def http1 : String → HttpOutcome := fun _ =>
  .ok 200 (.arr [.obj [("embedUrl", .str "http://x"), ("language", .str "EN"),
    ("hd", .bool true)]])

/-- `env0` with the HTTP world `http1`. -/
def env1 : Env := { http := http1, isoTs := fun _ => "", md5 := fun s => s }

/-- A raw match with `date = 0` and a single well-formed source ref. -/
def rawOneSource : Json :=
  .obj [("date", .num 0),
        ("sources", .arr [.obj [("source", .str "alpha"), ("id", .str "one")]])]

/-- The normalized stream descriptor `http1`'s response maps to. -/
def streamOut : Json :=
  .obj [("url", .str "http://x"), ("language", .str "EN"), ("hd", .bool true)]

/-- The normalized match `process_match env1 0 rawOneSource` produces. -/
def mOut : Json :=
  .obj [("id", .null),
        ("title", .str "Home vs Away"),
        ("sport", .null),
        ("kickOff", .str ""),
        ("isLive", .bool false),
        ("team1", .obj [("name", .str "Home Team"), ("logo", .str "")]),
        ("team2", .obj [("name", .str "Away Team"), ("logo", .str "")]),
        ("links", .arr [streamOut])]

/-- `Env` extended with the success domains of the two raising library
calls on the date: `floatOk` is the set of integers the line-70
subtraction `current_time_ms - match_date_ms` can convert to float
(CPython raises `OverflowError` for magnitudes beyond roughly
1.8*10^308), and `tsOk` the set of millisecond timestamps
`datetime.fromtimestamp(ms / 1000)` can render at line 94 (CPython
raises `ValueError`/`OverflowError` outside its platform- and
timezone-dependent calendar range). Both boundaries are part of the
environment, like the formatting itself. -/
structure EnvE extends Env where
  floatOk : Int → Bool
  tsOk : Int → Bool

/-- The post-filter body with the raising path of line 94 explicit.
Lines 73-88 behave exactly as in `processBody`; the difference is at
the result-dict assembly (lines 90-105), whose `kickOff` entry calls
`datetime.fromtimestamp(match_date_ms / 1000)` (line 94): when the
timestamp is outside the platform's renderable range (`tsOk`) that
call raises `ValueError`/`OverflowError` instead of producing the
dict. The refs resolved before the raise (lines 86-88 run first) are
still recorded. -/
def processBodyE (env : EnvE) (kvs : List (String × Json)) (d : Int) :
    Except PyErr Json × List Json :=
  match processBody env.toEnv kvs d with
  | (.error e, calls) => (.error e, calls)
  | (.ok j, calls) =>
    if !env.tsOk d then (.error .valueError, calls) else (.ok j, calls)

/-- `process_match` with the raising library calls explicit: line 70
converts the date to float before the window comparison (raising
`OverflowError` outside `floatOk`), and line 94 renders the timestamp
while assembling the result (raising outside `tsOk`). Filtered matches
return before line 94 is reached. -/
def process_matchE (env : EnvE) (now : Int) (api_match : Json) :
    Except PyErr (Option Json) :=
  match api_match with
  | .obj kvs =>
    match toNumber (dictGetD kvs "date" (.num 0)) with
    | none => .error .typeError
    | some d =>
      if !env.floatOk d then .error .overflowError
      else if now - d > TWELVE_HOURS_MS then .ok none
      else
        match processBodyE env kvs d with
        | (.ok j, _) => .ok (some j)
        | (.error e, _) => .error e
  | _ => .error .attributeError

/-- `env0` as seen by the explicit-raise model, on a realistic 64-bit
CPython platform: floats hold magnitudes below 10^308 and
`fromtimestamp` renders the years 1970-2100 (0 to 4102444800000 ms). -/
def envE0 : EnvE :=
  { http := fun _ => .exn, isoTs := fun _ => "", md5 := fun s => s,
    floatOk := fun d => decide (d.natAbs < 100000000000000000000000000000000000000000000000000000000000000000000000000000000000000000000000000000000000000000000000000000000000000000000000000000000000000000000000000000000000000000000000000000000000000000000000000000000000000000000000000000000000000000000000000000000000000000000000000000000000000000000),
    tsOk := fun d => decide (0 ≤ d ∧ d ≤ 4102444800000) }

/-- The persistence tail leaves the filesystem untouched when the new
fingerprint matches the loaded previous one. -/
theorem persistStep_hash_eq (env : Env) (timestamp : String)
    (final_schedule : List Json) (fs : FS)
    (h : generate_hash env (.arr final_schedule)
      = generate_hash env (load_existing_data fs.snapshot)) :
    persistStep env timestamp final_schedule fs = fs := by
  unfold persistStep shouldPersist
  simp [h]

/-- The persistence tail overwrites the snapshot and appends exactly one
audit line when the fingerprints differ. -/
theorem persistStep_hash_ne (env : Env) (timestamp : String)
    (final_schedule : List Json) (fs : FS)
    (h : generate_hash env (.arr final_schedule)
      ≠ generate_hash env (load_existing_data fs.snapshot)) :
    persistStep env timestamp final_schedule fs =
      { snapshot := .content (.arr final_schedule),
        log := fs.log ++ [logEntry timestamp final_schedule.length
          (generate_hash env (.arr final_schedule))] } := by
  unfold persistStep shouldPersist
  simp [h]

/-- When the effective source list is list-shaped, the `for s in
raw_sources:` loop iterates exactly over its elements. -/
theorem iterElems_sources (kvs : List (String × Json)) (srcs : List Json)
    (hs : sourcesList kvs = some srcs) :
    iterElems (pyOr (dictGetD kvs "sources" .null) (.arr [])) = .ok srcs := by
  unfold sourcesList at hs
  unfold pyOr
  by_cases h : pyTruthy (dictGetD kvs "sources" .null) = true
  · rw [if_pos h]
    simp only [h, if_true] at hs
    rcases hj : dictGetD kvs "sources" .null with _ | b | n | s | xs | fields <;>
      rw [hj] at hs <;> simp at hs
    subst hs
    rfl
  · rw [if_neg h]
    simp only [h, if_false] at hs
    simp at hs
    rw [← hs]
    rfl

/-- A `resolve_source` call on a dict ref never lets an exception
escape: it always returns a list. -/
theorem resolve_source_obj (http : String → HttpOutcome)
    (fields : List (String × Json)) :
    ∃ l, resolve_source http (.obj fields) = .ok l := by
  simp only [resolve_source]
  by_cases hg : (!pyTruthy (dictGetD fields "source" .null)
      || !pyTruthy (dictGetD fields "id" .null)) = true
  · rw [if_pos hg]
    exact ⟨[], rfl⟩
  · rw [if_neg hg]
    rcases http (streamUrl fields) with _ | ⟨status, data⟩
    · exact ⟨[], rfl⟩
    · by_cases hst : status = 200
      · rcases hb : asObjList data with _ | streams
        · exact ⟨[], by simp [hst, hb]⟩
        · exact ⟨streams.map cleanStream, by simp [hst, hb]⟩
      · exact ⟨[], by simp [hst]⟩

/-- A successful resolution loop returns exactly the concatenation, in
source order, of each source's resolved stream list. -/
theorem resolveLoop_fst_ok (http : String → HttpOutcome) :
    ∀ (srcs links : List Json),
      (resolveLoop http srcs).1 = .ok links →
      links = (srcs.map (resolvedStreams http)).flatten := by
  intro srcs
  induction srcs with
  | nil =>
    intro links h
    simp only [resolveLoop] at h
    simp at h
    subst h
    rfl
  | cons s rest ih =>
    intro links h
    simp only [resolveLoop] at h
    rcases hr : resolve_source http s with e | streams
    · rw [hr] at h
      simp at h
    · rw [hr] at h
      rcases hl : resolveLoop http rest with ⟨r2, calls⟩
      rw [hl] at h
      cases r2 with
      | error e => simp at h
      | ok more =>
        simp at h
        have hmore := ih more (by rw [hl])
        simp [resolvedStreams, hr, ← h, hmore]

/-- The resolution loop never lets an exception escape when every
source ref is a dict. -/
theorem resolveLoop_ok_of_objs (http : String → HttpOutcome) :
    ∀ (srcs : List Json), (∀ s ∈ srcs, ∃ fields, s = Json.obj fields) →
      ∃ links calls, resolveLoop http srcs = (.ok links, calls) := by
  intro srcs
  induction srcs with
  | nil =>
    intro _
    exact ⟨[], [], rfl⟩
  | cons s rest ih =>
    intro h
    obtain ⟨fields, hf⟩ := h s (List.mem_cons_self s rest)
    obtain ⟨l1, hl1⟩ := resolve_source_obj http fields
    obtain ⟨links, calls, hrest⟩ := ih (fun t ht => h t (List.mem_cons_of_mem s ht))
    refine ⟨l1 ++ links, s :: calls, ?_⟩
    simp only [resolveLoop]
    rw [hf, hl1, hrest]

/-- The post-filter body of `process_match`, computed from the shapes of
its containers and the outcome of the resolution loop. -/
theorem processBody_build (env : Env) (kvs teams home away : List (String × Json))
    (d : Int) (srcs links calls : List Json)
    (ht : asObj (pyOr (dictGetD kvs "teams" .null) (.obj [])) = .ok teams)
    (hh : asObj (pyOr (dictGetD teams "home" .null) (.obj [])) = .ok home)
    (ha : asObj (pyOr (dictGetD teams "away" .null) (.obj [])) = .ok away)
    (hs : sourcesList kvs = some srcs)
    (hrl : resolveLoop env.http srcs = (.ok links, calls)) :
    processBody env kvs d = (.ok (.obj [
      ("id", dictGetD kvs "id" .null),
      ("title", pyOr (dictGetD kvs "title" .null)
        (.str (pyStr (dictGetD home "name" (.str "Home")) ++ " vs "
          ++ pyStr (dictGetD away "name" (.str "Away"))))),
      ("sport", dictGetD kvs "category" .null),
      ("kickOff", .str (env.isoTs d)),
      ("isLive", .bool false),
      ("team1", .obj [("name", dictGetD home "name" (.str "Home Team")),
                      ("logo", badgeUrl home)]),
      ("team2", .obj [("name", dictGetD away "name" (.str "Away Team")),
                      ("logo", badgeUrl away)]),
      ("links", .arr links)]), calls) := by
  simp only [processBody, ht, hh, ha, iterElems_sources kvs srcs hs, hrl]

/-- `process_match` on a shape-well-formed, unfiltered raw match:
the assembled normalized object. -/
theorem process_match_build (env : Env) (now : Int)
    (kvs teams home away : List (String × Json)) (d : Int)
    (srcs links calls : List Json)
    (hd : toNumber (dictGetD kvs "date" (.num 0)) = some d)
    (hf : ¬ now - d > TWELVE_HOURS_MS)
    (ht : asObj (pyOr (dictGetD kvs "teams" .null) (.obj [])) = .ok teams)
    (hh : asObj (pyOr (dictGetD teams "home" .null) (.obj [])) = .ok home)
    (ha : asObj (pyOr (dictGetD teams "away" .null) (.obj [])) = .ok away)
    (hs : sourcesList kvs = some srcs)
    (hrl : resolveLoop env.http srcs = (.ok links, calls)) :
    process_match env now (.obj kvs) = .ok (some (.obj [
      ("id", dictGetD kvs "id" .null),
      ("title", pyOr (dictGetD kvs "title" .null)
        (.str (pyStr (dictGetD home "name" (.str "Home")) ++ " vs "
          ++ pyStr (dictGetD away "name" (.str "Away"))))),
      ("sport", dictGetD kvs "category" .null),
      ("kickOff", .str (env.isoTs d)),
      ("isLive", .bool false),
      ("team1", .obj [("name", dictGetD home "name" (.str "Home Team")),
                      ("logo", badgeUrl home)]),
      ("team2", .obj [("name", dictGetD away "name" (.str "Away Team")),
                      ("logo", badgeUrl away)]),
      ("links", .arr links)])) := by
  simp only [process_match, process_matchT, hd, if_neg hf,
    processBody_build env kvs teams home away d srcs links calls ht hh ha hs hrl]

/-- `process_match` filters a match exactly on the 12-hour window. -/
theorem process_match_filtered (env : Env) (now : Int)
    (kvs : List (String × Json)) (d : Int)
    (hd : toNumber (dictGetD kvs "date" (.num 0)) = some d)
    (hf : now - d > TWELVE_HOURS_MS) :
    process_matchT env now (.obj kvs) = (.ok none, []) := by
  simp only [process_matchT, hd, if_pos hf]

/-- Task outcomes depend only on each task's own clock sample. -/
theorem processResultsFrom_congr (env : Env) (c1 c2 : Nat → Int) :
    ∀ (raws : List Json) (start : Nat),
      (∀ i, i < raws.length → c1 (start + i) = c2 (start + i)) →
      processResultsFrom env c1 start raws = processResultsFrom env c2 start raws := by
  intro raws
  induction raws with
  | nil => intro start _; rfl
  | cons m rest ih =>
    intro start h
    have h0 : c1 start = c2 start := by simpa using h 0 (by simp)
    have hrest : ∀ i, i < rest.length → c1 (start + 1 + i) = c2 (start + 1 + i) := by
      intro i hi
      have heq : start + 1 + i = start + (i + 1) := by omega
      rw [heq]
      exact h (i + 1) (by simpa using Nat.succ_lt_succ hi)
    simp only [processResultsFrom, h0]
    rw [ih (start + 1) hrest]

/-- Starting the task numbering one later is the same as shifting the
clock. -/
theorem processResultsFrom_shift (env : Env) (clock : Nat → Int) :
    ∀ (raws : List Json) (start : Nat),
      processResultsFrom env clock (start + 1) raws
        = processResultsFrom env (fun i => clock (i + 1)) start raws := by
  intro raws
  induction raws with
  | nil => intro start; rfl
  | cons m rest ih =>
    intro start
    simp only [processResultsFrom]
    rw [ih (start + 1)]

/-- Reading the `links` field of an assembled normalized match. -/
theorem jGet_links (a b c e f g h2 l : Json) :
    jGet (.obj [("id", a), ("title", b), ("sport", c), ("kickOff", e),
      ("isLive", f), ("team1", g), ("team2", h2), ("links", l)]) "links" = l := rfl

/-- Reading the `title` field of an assembled normalized match. -/
theorem jGet_title (a b c e f g h2 l : Json) :
    jGet (.obj [("id", a), ("title", b), ("sport", c), ("kickOff", e),
      ("isLive", f), ("team1", g), ("team2", h2), ("links", l)]) "title" = b := rfl

/-- Reading the `team1` field of an assembled normalized match. -/
theorem jGet_team1 (a b c e f g h2 l : Json) :
    jGet (.obj [("id", a), ("title", b), ("sport", c), ("kickOff", e),
      ("isLive", f), ("team1", g), ("team2", h2), ("links", l)]) "team1" = g := rfl

/-- Reading the `team2` field of an assembled normalized match. -/
theorem jGet_team2 (a b c e f g h2 l : Json) :
    jGet (.obj [("id", a), ("title", b), ("sport", c), ("kickOff", e),
      ("isLive", f), ("team1", g), ("team2", h2), ("links", l)]) "team2" = h2 := rfl

/-- Reading the `name` field of an assembled team record. -/
theorem jGet_name (n lg : Json) :
    jGet (.obj [("name", n), ("logo", lg)]) "name" = n := rfl

/-- `x or d` falls through to the default on a falsy value. -/
theorem pyOr_falsy (x d : Json) (h : pyTruthy x = false) : pyOr x d = d := by
  simp [pyOr, h]

/-- `.get` falls back to its default when the key is absent. -/
theorem dictGetD_none (kvs : List (String × Json)) (k : String) (d : Json)
    (h : List.lookup k kvs = none) : dictGetD kvs k d = d := by
  simp [dictGetD, h]

/-- C1: for every dict `SourceRef` input, `resolve_source` returns the
empty sequence — and lets no exception escape to its caller — whenever
the deep-link request fails in any way (exception such as a timeout or
connection failure or unparsable body, non-200 status, or a 200 body
that is not an array of objects) or the ref's `source` or `id` field is
missing or empty (falsy). -/
theorem C1_resolve_source_fail_open (http : String → HttpOutcome)
    (kvs : List (String × Json)) (h : resolveFails http kvs) :
    resolve_source http (.obj kvs) = .ok [] := by
  simp only [resolve_source]
  rcases h with h | h | h | ⟨status, body, hb, hst⟩ | ⟨body, hb, hbad⟩
  · simp [h]
  · simp [h]
  · by_cases hg : (!pyTruthy (dictGetD kvs "source" .null)
        || !pyTruthy (dictGetD kvs "id" .null)) = true
    · rw [if_pos hg]
    · rw [if_neg hg, h]
  · by_cases hg : (!pyTruthy (dictGetD kvs "source" .null)
        || !pyTruthy (dictGetD kvs "id" .null)) = true
    · rw [if_pos hg]
    · rw [if_neg hg, hb]
      simp [hst]
  · by_cases hg : (!pyTruthy (dictGetD kvs "source" .null)
        || !pyTruthy (dictGetD kvs "id" .null)) = true
    · rw [if_pos hg]
    · rw [if_neg hg, hb]
      simp [hbad]

/-- Witness for C1: a ref with no `source` field, in a world where every
request raises, resolves to the empty list. -/
theorem C1_witness : resolve_source env0.http (.obj []) = .ok [] :=
  C1_resolve_source_fail_open env0.http [] (Or.inl rfl)

/-- C2: the run persists (overwrites the snapshot and appends exactly
one log entry) iff `generate_hash(new) ≠ generate_hash(old)`, where the
old schedule is the last persisted snapshot, or the empty sequence when
the snapshot file is missing or unparsable; the gate is false on
identical data, and a snapshot identical to the new schedule causes no
filesystem mutation at all. -/
theorem C2_change_gate (env : Env) (timestamp : String) (sched : List Json)
    (fs : FS) :
    (generate_hash env (.arr sched) = generate_hash env (load_existing_data fs.snapshot)
      → persistStep env timestamp sched fs = fs)
    ∧ (generate_hash env (.arr sched) ≠ generate_hash env (load_existing_data fs.snapshot)
      → persistStep env timestamp sched fs =
        { snapshot := .content (.arr sched),
          log := fs.log ++ [logEntry timestamp sched.length
            (generate_hash env (.arr sched))] })
    ∧ (fs.snapshot = .content (.arr sched) → persistStep env timestamp sched fs = fs)
    ∧ shouldPersist env (.arr sched) (.arr sched) = false
    ∧ load_existing_data .missing = .arr []
    ∧ load_existing_data .corrupt = .arr [] := by
  refine ⟨persistStep_hash_eq env timestamp sched fs,
    persistStep_hash_ne env timestamp sched fs, ?_, ?_, rfl, rfl⟩
  · intro h
    apply persistStep_hash_eq
    rw [h]
    rfl
  · simp [shouldPersist]

/-- Witness for C2: on a missing snapshot and an empty new schedule the
fingerprints agree and nothing is written. -/
theorem C2_witness : persistStep env0 "t" [] fs0 = fs0 :=
  (C2_change_gate env0 "t" [] fs0).1 rfl

/-- C3: for a raw match whose `date` (defaulted to 0) is numeric,
`process_match` is absent exactly when `now - date > 43200000` ms, and
on a filtered match it returns immediately: no ref is ever passed to
`resolve_source`. -/
theorem C3_time_filter (env : Env) (now : Int) (kvs : List (String × Json))
    (d : Int) (hd : toNumber (dictGetD kvs "date" (.num 0)) = some d) :
    (process_match env now (.obj kvs) = .ok none ↔ now - d > TWELVE_HOURS_MS)
    ∧ (now - d > TWELVE_HOURS_MS → (process_matchT env now (.obj kvs)).2 = []) := by
  constructor
  · constructor
    · intro h
      by_contra hgt
      simp only [process_match, process_matchT, hd, if_neg hgt] at h
      rcases hpb : processBody env kvs d with ⟨r, calls⟩
      rw [hpb] at h
      cases r <;> simp at h
    · intro hf
      simp [process_match, process_match_filtered env now kvs d hd hf]
  · intro hf
    simp [process_match_filtered env now kvs d hd hf]

/-- Witness for C3: a `date = 0` match at `now` just past the window is
dropped with zero resolution calls. -/
theorem C3_witness :
    process_match env0 43200001 rawDate0 = .ok none
    ∧ (process_matchT env0 43200001 rawDate0).2 = [] := by
  have h := C3_time_filter env0 43200001 [("date", Json.num 0)] 0 rfl
  exact ⟨h.1.mpr (by decide), h.2 (by decide)⟩

/-- C4: for every raw match whose `process_match` run succeeds with a
normalized match, `links` is exactly the concatenation, in the
declaration order of `sources`, of each source's resolved stream list
(a failing or empty source contributing zero entries); moreover, on a
200 array-of-objects response a source's resolved list maps each
element through `cleanStream` (`url` = `embedUrl` verbatim, `language`
defaulting to `"Unknown"`, `hd` defaulting to `false`). -/
theorem C4_links_concat (env : Env) (now : Int) (kvs : List (String × Json))
    (srcs : List Json) (m : Json)
    (hs : sourcesList kvs = some srcs)
    (hm : process_match env now (.obj kvs) = .ok (some m)) :
    jGet m "links" = .arr ((srcs.map (resolvedStreams env.http)).flatten)
    ∧ (∀ (s : List (String × Json)) (body : Json)
        (streams : List (List (String × Json))),
        pyTruthy (dictGetD s "source" .null) = true →
        pyTruthy (dictGetD s "id" .null) = true →
        env.http (streamUrl s) = .ok 200 body →
        asObjList body = some streams →
        resolve_source env.http (.obj s) = .ok (streams.map cleanStream)) := by
  constructor
  · simp only [process_match, process_matchT] at hm
    rcases hdm : toNumber (dictGetD kvs "date" (.num 0)) with _ | d
    · rw [hdm] at hm
      simp at hm
    · simp only [hdm] at hm
      by_cases hf : now - d > TWELVE_HOURS_MS
      · rw [if_pos hf] at hm
        simp at hm
      · rw [if_neg hf] at hm
        rcases hpb : processBody env kvs d with ⟨r, calls⟩
        rw [hpb] at hm
        cases r with
        | error e => simp at hm
        | ok j =>
          simp at hm
          subst hm
          simp only [processBody] at hpb
          rcases ht : asObj (pyOr (dictGetD kvs "teams" .null) (.obj [])) with e | teams
          · simp only [ht] at hpb
            simp at hpb
          · simp only [ht] at hpb
            rcases hh : asObj (pyOr (dictGetD teams "home" .null) (.obj [])) with e | home
            · simp only [hh] at hpb
              simp at hpb
            · simp only [hh] at hpb
              rcases ha : asObj (pyOr (dictGetD teams "away" .null) (.obj [])) with e | away
              · simp only [ha] at hpb
                simp at hpb
              · simp only [ha, iterElems_sources kvs srcs hs] at hpb
                rcases hrl : resolveLoop env.http srcs with ⟨rl, calls2⟩
                rw [hrl] at hpb
                cases rl with
                | error e => simp at hpb
                | ok links =>
                  simp at hpb
                  obtain ⟨hj, _⟩ := hpb
                  rw [← hj, jGet_links]
                  have hlinks := resolveLoop_fst_ok env.http srcs links (by rw [hrl])
                  rw [hlinks]
  · intro s body streams h1 h2 hb hstreams
    simp only [resolve_source]
    simp [h1, h2, hb, hstreams]

/-- Witness for C4: the spec's scenario — one source resolving to
`[{embedUrl: "http://x", language: "EN", hd: true}]` yields
`links = [{url: "http://x", language: "EN", hd: true}]`. -/
theorem C4_witness :
    process_match env1 0 rawOneSource = .ok (some mOut)
    ∧ jGet mOut "links"
      = .arr (([Json.obj [("source", .str "alpha"), ("id", .str "one")]].map
          (resolvedStreams env1.http)).flatten)
    ∧ jGet mOut "links" = .arr [streamOut] := by
  refine ⟨rfl, ?_, rfl⟩
  exact (C4_links_concat env1 0
    [("date", .num 0),
     ("sources", .arr [.obj [("source", .str "alpha"), ("id", .str "one")]])]
    [.obj [("source", .str "alpha"), ("id", .str "one")]] mOut rfl rfl).1

/-- C5 (amended): the reference instant is not captured once before
dispatch — each match task reads `time.time()` itself inside
`process_match` — so a task's outcome depends precisely on its own
clock sample: runs whose clocks agree on the indices actually used
coincide. (The counterexample shows two tasks of one run observing
different instants and being filtered differently.) -/
theorem C5_per_task_clock (env : Env) (c1 c2 : Nat → Int) (raws : List Json)
    (h : ∀ i, i < raws.length → c1 i = c2 i) :
    processAll env c1 raws = processAll env c2 raws := by
  unfold processAll
  rw [processResultsFrom_congr env c1 c2 raws 0 (by simpa using h)]

/-- Witness for C5: a singleton run only consults the clock at index 0. -/
theorem C5_witness :
    processAll env0 clk2 [rawDate0] = processAll env0 (fun _ => (0 : Int)) [rawDate0] :=
  C5_per_task_clock env0 clk2 (fun _ => 0) [rawDate0] (by
    intro i hi
    have h0 : i = 0 := by simpa using hi
    subst h0
    rfl)

/-- Counterexample for C5 as stated: with the per-task clock two copies
of the same match are filtered differently in one run (samples 0 and
43200001 ms), which no single captured instant reproduces — processing
is not equivalent to processing against the first task's instant. -/
theorem C5_counterexample :
    processAll env0 clk2 [rawDate0, rawDate0]
      ≠ processAll env0 (fun _ => clk2 0) [rawDate0, rawDate0] := by
  intro h
  have h2 := congrArg countOf h
  rw [show countOf (processAll env0 clk2 [rawDate0, rawDate0]) = 1 from rfl,
    show countOf (processAll env0 (fun _ => clk2 0) [rawDate0, rawDate0]) = 2 from rfl] at h2
  exact absurd h2 (by decide)

/-- C6: whenever the upstream fetch yields an empty list — and every
transport failure is converted to an empty list — the run returns
before aggregation and the filesystem is untouched: no snapshot write,
no log append. -/
theorem C6_no_data_short_circuit (env : Env) (clock : Nat → Int)
    (timestamp : String) (outcome : HttpOutcome) (fs : FS)
    (h : fetch_matches outcome = .arr []) :
    mainRun env clock timestamp outcome fs = .ok fs
    ∧ fetch_matches .exn = .arr [] := by
  refine ⟨?_, rfl⟩
  simp [mainRun, h, pyTruthy]

/-- Witness for C6: a failed main fetch mutates nothing. -/
theorem C6_witness : mainRun env0 (fun _ => 0) "t" .exn fs0 = .ok fs0 :=
  (C6_no_data_short_circuit env0 (fun _ => 0) "t" .exn fs0 rfl).1

/-- C7 (amended): with a non-empty raw list all of whose matches are
discarded, the run does not unconditionally write: it carries the empty
schedule to the change gate and writes it iff the empty schedule's
fingerprint differs from the previous snapshot's (so an already-empty
or missing snapshot stays untouched, while a previously non-empty one
is overwritten with the empty schedule plus one log line). -/
theorem C7_empty_after_filter (env : Env) (clock : Nat → Int)
    (timestamp : String) (fs : FS) (raws : List Json) (hne : raws ≠ [])
    (hall : processAll env clock raws = .ok []) :
    mainRun env clock timestamp (.ok 200 (.arr raws)) fs
      = .ok (persistStep env timestamp [] fs)
    ∧ (generate_hash env (.arr []) = generate_hash env (load_existing_data fs.snapshot)
        → mainRun env clock timestamp (.ok 200 (.arr raws)) fs = .ok fs)
    ∧ (generate_hash env (.arr []) ≠ generate_hash env (load_existing_data fs.snapshot)
        → mainRun env clock timestamp (.ok 200 (.arr raws)) fs
          = .ok { snapshot := .content (.arr []),
                  log := fs.log ++ [logEntry timestamp 0 (generate_hash env (.arr []))] }) := by
  have hmain : mainRun env clock timestamp (.ok 200 (.arr raws)) fs
      = .ok (persistStep env timestamp [] fs) := by
    have hne2 : raws.isEmpty = false := by
      cases raws with
      | nil => exact absurd rfl hne
      | cons a l => rfl
    simp [mainRun, fetch_matches, pyTruthy, hne2, iterElems, hall, sortByKick]
  refine ⟨hmain, ?_, ?_⟩
  · intro h
    rw [hmain, persistStep_hash_eq env timestamp [] fs h]
  · intro h
    rw [hmain, persistStep_hash_ne env timestamp [] fs h]
    rfl

/-- Witness for C7 (amended): all-filtered input against a previously
non-empty snapshot does write the empty schedule and one log line. -/
theorem C7_witness :
    mainRun env0 (fun _ => 43200001) "t" (.ok 200 (.arr [rawDate0]))
      { snapshot := .content (.arr [.str "x"]), log := [] }
      = .ok { snapshot := .content (.arr []),
              log := ["[t] Updated: 0 matches found. Hash: []"] } :=
  (C7_empty_after_filter env0 (fun _ => 43200001) "t"
    { snapshot := .content (.arr [.str "x"]), log := [] }
    [rawDate0] (by simp [rawDate0]) rfl).2.2 (by decide)

/-- Counterexample for C7 as stated: the same all-filtered, non-empty
raw input against a missing snapshot writes nothing at all — the
snapshot file is not created and no log entry is appended, contradicting
"the run still writes an empty schedule". -/
theorem C7_counterexample :
    mainRun env0 (fun _ => 43200001) "t" (.ok 200 (.arr [rawDate0])) fs0 = .ok fs0 := rfl

/-- On timestamps the platform can render, the explicit-raise body
coincides with `processBody`. -/
theorem processBodyE_agrees (env : EnvE) (kvs : List (String × Json))
    (d : Int) (h : env.tsOk d = true) :
    processBodyE env kvs d = processBody env.toEnv kvs d := by
  unfold processBodyE
  rcases hp : processBody env.toEnv kvs d with ⟨r, calls⟩
  cases r with
  | error e => rfl
  | ok j => simp [h]

/-- C8 (amended): with the raising library calls of lines 70 and 94
modelled explicitly, `process_match` terminates normally — missing
fields defaulted, worst case empty/default fields — for every raw
match whose `date` (defaulted to 0) is numeric, within the platform's
float range, and (unless the match is filtered, which returns before
line 94) within `datetime.fromtimestamp`'s accepted range, whose
`teams`/`home`/`away` containers are dicts or falsy, and whose
`sources` is list-shaped with dict elements. (The counterexamples show
the wider claims fail: a present-but-null `date` raises `TypeError` at
line 70, a well-shaped `date = 10^15` ms passes the filter and raises
`ValueError` at line 94, and a float-overflowing `date` raises
`OverflowError` at line 70.) -/
theorem C8_total_when_shaped (env : EnvE) (now : Int)
    (kvs : List (String × Json)) (h : wellFormedRaw kvs)
    (hdate : ∀ d, toNumber (dictGetD kvs "date" (.num 0)) = some d →
      env.floatOk d = true ∧ (now - d > TWELVE_HOURS_MS ∨ env.tsOk d = true)) :
    ∃ r, process_matchE env now (.obj kvs) = .ok r := by
  obtain ⟨⟨d, hd⟩, ⟨teams, ht, ⟨home, hh⟩, ⟨away, ha⟩⟩, ⟨srcs, hs, hobj⟩⟩ := h
  obtain ⟨hfl, hrange⟩ := hdate d hd
  by_cases hf : now - d > TWELVE_HOURS_MS
  · exact ⟨none, by simp [process_matchE, hd, hfl, hf]⟩
  · have hts : env.tsOk d = true := hrange.resolve_left hf
    obtain ⟨links, calls, hrl⟩ := resolveLoop_ok_of_objs env.http srcs hobj
    refine ⟨some (.obj [
      ("id", dictGetD kvs "id" .null),
      ("title", pyOr (dictGetD kvs "title" .null)
        (.str (pyStr (dictGetD home "name" (.str "Home")) ++ " vs "
          ++ pyStr (dictGetD away "name" (.str "Away"))))),
      ("sport", dictGetD kvs "category" .null),
      ("kickOff", .str (env.isoTs d)),
      ("isLive", .bool false),
      ("team1", .obj [("name", dictGetD home "name" (.str "Home Team")),
                      ("logo", badgeUrl home)]),
      ("team2", .obj [("name", dictGetD away "name" (.str "Away Team")),
                      ("logo", badgeUrl away)]),
      ("links", .arr links)]), ?_⟩
    simp [process_matchE, hd, hfl, hf, processBodyE_agrees env kvs d hts,
      processBody_build env.toEnv kvs teams home away d srcs links calls
        ht hh ha hs hrl]

/-- Witness for C8: the empty raw match, on a realistic platform
(floats below 10^308, calendar 1970–2100), is well-shaped, in range,
and processed without an exception. -/
theorem C8_witness :
    wellFormedRaw [] ∧ ∃ r, process_matchE envE0 0 (.obj []) = .ok r := by
  have hwf : wellFormedRaw [] :=
    ⟨⟨0, rfl⟩, ⟨[], rfl, ⟨[], rfl⟩, ⟨[], rfl⟩⟩, ⟨[], rfl, by simp⟩⟩
  refine ⟨hwf, C8_total_when_shaped envE0 0 [] hwf ?_⟩
  intro d hd
  have h0 : toNumber (dictGetD [] "date" (.num 0)) = some 0 := rfl
  rw [h0] at hd
  obtain rfl : (0 : Int) = d := Option.some.inj hd
  exact ⟨by decide, Or.inr (by decide)⟩

/-- Counterexample for C8 as stated: a present-but-null `date` raises
`TypeError` (line 70); a well-shaped `date = 10^15` ms passes the
filter and raises `ValueError` (`datetime.fromtimestamp`, line 94); a
`date` beyond float range raises `OverflowError` (line 70) — malformed
or extreme fields are not always defaulted away. -/
theorem C8_counterexample :
    process_matchE envE0 0 (.obj [("date", Json.null)]) = .error .typeError
    ∧ process_matchE envE0 0 (.obj [("date", .num 1000000000000000)])
      = .error .valueError
    ∧ process_matchE envE0 0 (.obj [("date", .num (-1000000000000000000000000000000000000000000000000000000000000000000000000000000000000000000000000000000000000000000000000000000000000000000000000000000000000000000000000000000000000000000000000000000000000000000000000000000000000000000000000000000000000000000000000000000000000000000000000000000000000000000000))])
      = .error .overflowError :=
  ⟨rfl, rfl, rfl⟩

/-- C9 (amended): for a non-filtered raw match with falsy `title` and
no team names, `team1.name`/`team2.name` fall back to
`"Home Team"`/`"Away Team"`, but the fallback title is built from the
separate defaults `"Home"`/`"Away"`: the title is `"Home vs Away"`,
not `"Home Team vs Away Team"`. -/
theorem C9_fallback_title (env : Env) (now : Int)
    (kvs teams home away : List (String × Json)) (d : Int) (srcs : List Json)
    (hd : toNumber (dictGetD kvs "date" (.num 0)) = some d)
    (hf : ¬ now - d > TWELVE_HOURS_MS)
    (ht : asObj (pyOr (dictGetD kvs "teams" .null) (.obj [])) = .ok teams)
    (hh : asObj (pyOr (dictGetD teams "home" .null) (.obj [])) = .ok home)
    (ha : asObj (pyOr (dictGetD teams "away" .null) (.obj [])) = .ok away)
    (hs : sourcesList kvs = some srcs)
    (hobj : ∀ s ∈ srcs, ∃ fields, s = Json.obj fields)
    (htitle : pyTruthy (dictGetD kvs "title" .null) = false)
    (hhn : List.lookup "name" home = none)
    (han : List.lookup "name" away = none) :
    ∃ m, process_match env now (.obj kvs) = .ok (some m)
      ∧ jGet m "title" = .str "Home vs Away"
      ∧ jGet (jGet m "team1") "name" = .str "Home Team"
      ∧ jGet (jGet m "team2") "name" = .str "Away Team" := by
  obtain ⟨links, calls, hrl⟩ := resolveLoop_ok_of_objs env.http srcs hobj
  refine ⟨_, process_match_build env now kvs teams home away d srcs
      links calls hd hf ht hh ha hs hrl, ?_, ?_, ?_⟩
  · rw [jGet_title, pyOr_falsy _ _ htitle,
      dictGetD_none home "name" _ hhn, dictGetD_none away "name" _ han]
    rfl
  · rw [jGet_team1, jGet_name, dictGetD_none home "name" _ hhn]
  · rw [jGet_team2, jGet_name, dictGetD_none away "name" _ han]

/-- Witness for C9 (amended): the empty raw match gets team names
`"Home Team"`/`"Away Team"` and title `"Home vs Away"`. -/
theorem C9_witness :
    ∃ m, process_match env0 0 (.obj []) = .ok (some m)
      ∧ jGet m "title" = .str "Home vs Away"
      ∧ jGet (jGet m "team1") "name" = .str "Home Team"
      ∧ jGet (jGet m "team2") "name" = .str "Away Team" :=
  C9_fallback_title env0 0 [] [] [] [] 0 [] rfl (by decide) rfl rfl rfl rfl
    (by simp) rfl rfl rfl

/-- Counterexample for C9 as stated: a no-title, no-names match has
title `"Home vs Away"`, which is not the claimed
`"Home Team vs Away Team"`. -/
theorem C9_counterexample :
    titleOf (process_match env0 0 (.obj [])) = "Home vs Away"
    ∧ titleOf (process_match env0 0 (.obj [])) ≠ "Home Team vs Away Team" := by
  constructor
  · rfl
  · intro h
    rw [show titleOf (process_match env0 0 (.obj [])) = "Home vs Away" from rfl] at h
    exact absurd h (by decide)

/-- C10: a raw match with no `date` field is treated as `date = 0`, so
for every `now > 43200000` ms it is filtered out, and such a match never
contributes an entry to the collected schedule of a run whose task read
`now` from the clock. -/
theorem C10_dateless_filtered (env : Env) (now : Int)
    (kvs : List (String × Json))
    (hnd : List.lookup "date" kvs = none) (hgt : now > 43200000) :
    dictGetD kvs "date" (.num 0) = .num 0
    ∧ process_match env now (.obj kvs) = .ok none
    ∧ (∀ (clock : Nat → Int) (rest : List Json), clock 0 = now →
        processAll env clock (Json.obj kvs :: rest)
          = processAll env (fun i => clock (i + 1)) rest) := by
  have hget : dictGetD kvs "date" (.num 0) = .num 0 := dictGetD_none kvs "date" _ hnd
  have hd : toNumber (dictGetD kvs "date" (.num 0)) = some 0 := by rw [hget]; rfl
  have hf : now - 0 > TWELVE_HOURS_MS := by
    simp only [TWELVE_HOURS_MS]
    omega
  refine ⟨hget, ?_, ?_⟩
  · simp [process_match, process_match_filtered env now kvs 0 hd hf]
  · intro clock rest hc
    unfold processAll
    simp only [processResultsFrom, hc]
    simp only [process_match, process_match_filtered env now kvs 0 hd hf]
    rw [← processResultsFrom_shift env clock rest 0]
    rcases hr : processResultsFrom env clock (0 + 1) rest with e | rs
    · rfl
    · rfl

/-- Witness for C10: the empty raw match (no `date`) is dropped just
past the 12-hour window. -/
theorem C10_witness :
    dictGetD [] "date" (.num 0) = .num 0
    ∧ process_match env0 43200001 (.obj []) = .ok none := by
  have h := C10_dateless_filtered env0 43200001 [] rfl (by decide)
  exact ⟨h.1, h.2.1⟩
